import Mathlib

/-!
Verification model of `stl-optimizer.py`.

The script `optimize_stl` loads a mesh, computes its bounding box, derives a
wall thickness, writes a CSG script, shells out to OpenSCAD and CuraEngine,
and packages a slicer profile.  We embed its numeric logic over `ℚ`
(the Python floats carry exact decimal constants in every claim considered),
and its I/O behaviour as an event trace.
-/

/-- A 3-vector of rationals, modelling the numpy 3-vectors of the script. -/
structure V3 where
  x : ℚ
  y : ℚ
  z : ℚ
deriving DecidableEq

/-- An axis-aligned bounding box, modelling `mesh.bounds` (rows `lo`, `hi`). -/
structure Bounds where
  lo : V3
  hi : V3
deriving DecidableEq

/-- `dims = [bounds[1][i] - bounds[0][i] for i]` (line 80). -/
def dimsOf (b : Bounds) : V3 :=
  ⟨b.hi.x - b.lo.x, b.hi.y - b.lo.y, b.hi.z - b.lo.z⟩

/-- `center = [(bounds[0][i] + bounds[1][i]) / 2 for i]` (line 81). -/
def centerOf (b : Bounds) : V3 :=
  ⟨(b.lo.x + b.hi.x) / 2, (b.lo.y + b.hi.y) / 2, (b.lo.z + b.hi.z) / 2⟩

/-- Python `max(dims)` over the three components. -/
def maxDim (d : V3) : ℚ := max d.x (max d.y d.z)

/-- Python `min(dims)` over the three components. -/
def minDim (d : V3) : ℚ := min d.x (min d.y d.z)

/-- `scale_factor = 1000 if max(dims) < 1 else 1` (line 83). -/
def scale_factor (d : V3) : ℚ := if maxDim d < 1 then 1000 else 1

/-- Componentwise scaling of a 3-vector by a scalar, modelling the list
comprehensions `[d * scale_factor for d in dims]` etc. (lines 85-87). -/
def smul (k : ℚ) (v : V3) : V3 := ⟨k * v.x, k * v.y, k * v.z⟩

/-- Lines 79-87: compute `dims`, `center` and `bounds`, then scale all of
them by `scale_factor` when it differs from 1. -/
def scaleState (b : Bounds) : V3 × V3 × Bounds :=
  let dims := dimsOf b
  let center := centerOf b
  let k := scale_factor dims
  if k ≠ 1 then (smul k dims, smul k center, ⟨smul k b.lo, smul k b.hi⟩)
  else (dims, center, b)

/-- Lines 95-101: clamp the requested thickness.
`if thickness * 2 > min_dim: thickness = min_dim / 4`
`elif thickness < 0.4: thickness = 0.4`. -/
def adjust_thickness (d : V3) (t : ℚ) : ℚ :=
  let m := minDim d
  if t * 2 > m then m / 4
  else if t < 0.4 then 0.4
  else t

/-- Line 103: the run proceeds to emit the CSG script exactly when
`min_dim - 2 * thickness < 0.4` fails. -/
def hollow_ok (d : V3) (t : ℚ) : Bool :=
  if minDim d - 2 * t < 0.4 then false else true

/-- Line 117: per-axis shrink ratio `(dims[i] - 2*thickness) / dims[i]`
written into the CSG `scale([...])` call. -/
def shrink_ratio (a t : ℚ) : ℚ := (a - 2 * t) / a

/-! ## Trace model of the I/O behaviour of `optimize_stl` -/

/-- The two external binaries the script invokes. -/
inductive Prog
  | openscad
  | cura
deriving DecidableEq

/-- Outcome of a `subprocess.run` call as the script distinguishes them:
success, a `CalledProcessError` (non-zero exit), or `TimeoutExpired`. -/
inductive ProcOutcome
  | ok
  | exitFail
  | timedOut
deriving DecidableEq

/-- The files a run of `optimize_stl` writes or removes.  Names abstract the
path computations of the script: `debugRaw` is `*_raw_debug.stl` (line 61),
`debugRepaired` is `*_repaired_debug.stl` (line 70), `scadTemp` is
`temp.scad` (line 123), `outputStl` the `*_opt_t{..}_m{..}.stl` result
(line 128), `profileZip` the `.curaprofile` ZIP (line 200), and the two
gcode names the `temp_{label}.gcode` files (line 215). -/
inductive FName
  | debugRaw
  | debugRepaired
  | scadTemp
  | outputStl
  | profileZip
  | gcodeOptimized
  | gcodeUnoptimized
deriving DecidableEq

/-- Observable events of a run: file creation, file removal (`os.remove`),
and a subprocess invocation with its `timeout` argument (in seconds) and
outcome. -/
inductive Event
  | create (f : FName)
  | delete (f : FName)
  | exec (p : Prog) (tmo : Option Nat) (r : ProcOutcome)
deriving DecidableEq

/-- Environment of one run of `optimize_stl`: everything decided outside the
script's own code.  `loadOk` is whether `trimesh.load` succeeds (line 54);
`repairExn` whether `repair_mesh` hits an exception and returns `None`
(line 47); `rawBounds` the loaded mesh's bounding box; `thickness` the
requested wall thickness; `openscadRun` the OpenSCAD subprocess outcome
(line 131); `curaPathsExist` whether both `CURA_ENGINE_PATH` and `BASE_DEF`
exist (lines 208-213); the `cura*Ok` flags whether each CuraEngine call
exits cleanly (line 225, no timeout is passed so `TimeoutExpired` cannot
arise); the `cura*Time` fields the seconds value of the first `;TIME:` line
of its output, `none` when the marker is absent. -/
structure RunEnv where
  loadOk : Bool
  repairExn : Bool
  rawBounds : Bounds
  thickness : ℚ
  openscadRun : ProcOutcome
  curaPathsExist : Bool
  curaOptimizedOk : Bool
  curaOptimizedTime : Option Nat
  curaUnoptimizedOk : Bool
  curaUnoptimizedTime : Option Nat

/-- The dimension vector the run works with after the heuristic scaling
(lines 79-88). -/
def scaled_dims (env : RunEnv) : V3 := (scaleState env.rawBounds).1

/-- The wall thickness the run actually uses after clamping (lines 94-101),
written into both the CSG script and the slicer profile. -/
def used_thickness (env : RunEnv) : ℚ :=
  adjust_thickness (scaled_dims env) env.thickness

/-- The run reaches the CSG-script stage iff the mesh loads and the
hollowing feasibility check of line 103 passes. -/
def reachesCSG (env : RunEnv) : Bool :=
  env.loadOk && hollow_ok (scaled_dims env) (used_thickness env)

/-- Trace of the inner `get_print_time` helper (lines 207-236): check the
two hard-coded paths, run CuraEngine (no `timeout` argument), scan stdout
for `;TIME:`; on a hit remove the temp gcode and return seconds/60, else
return `None` leaving the gcode behind. -/
def get_print_time_run (pathsExist runOk : Bool) (timeSec : Option Nat)
    (g : FName) : Option ℚ × List Event :=
  if !pathsExist then (none, [])
  else if runOk then
    match timeSec with
    | some sec => (some ((sec : ℚ) / 60), [.exec .cura none .ok, .create g, .delete g])
    | none => (none, [.exec .cura none .ok, .create g])
  else (none, [.exec .cura none .exitFail])

/-- Trace model of `optimize_stl` (lines 51-249): returns the Boolean result
of the function and the list of file/subprocess events of the run, in
program order.  Mesh loading failure returns `False` at once (line 58); the
raw debug export always happens (line 62); the repaired debug export happens
when `repair_mesh` returns a mesh (line 71); the too-thin check returns
`False` (line 105); the CSG script is written (line 124), OpenSCAD runs with
`timeout=600` and the script is removed in all three handled outcomes
(lines 131-142); the profile ZIP is always written (line 201); the optimized
slice runs only when an output path exists (line 238) and the unoptimized
slice always runs (line 239); the function then returns `True` (line 249). -/
def optimize_stl_run (env : RunEnv) : Bool × List Event :=
  if !env.loadOk then (false, [])
  else
    let tr1 : List Event := [.create .debugRaw]
    let tr2 := if env.repairExn then tr1 else tr1 ++ [.create .debugRepaired]
    if !(hollow_ok (scaled_dims env) (used_thickness env)) then (false, tr2)
    else
      let tr3 := tr2 ++ [.create .scadTemp]
      let osRes : Bool × List Event :=
        match env.openscadRun with
        | .ok =>
            (true, tr3 ++ [.exec .openscad (some 600) .ok, .create .outputStl, .delete .scadTemp])
        | .exitFail =>
            (false, tr3 ++ [.exec .openscad (some 600) .exitFail, .delete .scadTemp])
        | .timedOut =>
            (false, tr3 ++ [.exec .openscad (some 600) .timedOut, .delete .scadTemp])
      let haveOutput := osRes.1
      let tr5 := osRes.2 ++ [.create .profileZip]
      let tr6 := tr5 ++
        (if haveOutput then
          (get_print_time_run env.curaPathsExist env.curaOptimizedOk
            env.curaOptimizedTime .gcodeOptimized).2
         else [])
      let tr7 := tr6 ++
        (get_print_time_run env.curaPathsExist env.curaUnoptimizedOk
          env.curaUnoptimizedTime .gcodeUnoptimized).2
      (true, tr7)

/-- One event's effect on the existence of file `f`. -/
def stepEvent (f : FName) (s : Bool) (e : Event) : Bool :=
  match e with
  | .create g => if g = f then true else s
  | .delete g => if g = f then false else s
  | .exec _ _ _ => s

/-- A file survives a trace when it has been created and not removed
afterwards. -/
def survives (tr : List Event) (f : FName) : Bool :=
  tr.foldl (stepEvent f) false

/-! ## Parsing model of `get_print_time` (lines 224-236)

Lines of text are `List Char`.  The helper scans `result.stdout.splitlines()`
for the first line containing `;TIME:`, then evaluates
`int(line.split(":")[1]) / 60`.  A `ValueError` from `int` (or an
`IndexError` from the subscript) is not caught anywhere, so the model's
result type is `Except Unit (Option ℚ)`: `.error ()` is an escaped
exception. -/

/-- Python `pat in line` substring test. -/
def containsPat (pat : List Char) : List Char → Bool
  | [] => pat.isEmpty
  | c :: cs => pat.isPrefixOf (c :: cs) || containsPat pat cs

/-- Python `line.split(sep)` for a single-character separator. -/
def splitOnSep (sep : Char) : List Char → List (List Char)
  | [] => [[]]
  | c :: cs =>
    match splitOnSep sep cs with
    | [] => [[]]
    | h :: t => if c = sep then [] :: h :: t else (c :: h) :: t

/-- The marker `;TIME:` searched for in the slicer output. -/
def timeMarker : List Char := [ ';', 'T', 'I', 'M', 'E', ':']

/-- ASCII space, for the whitespace stripping `int` performs. -/
def isSpaceChar (c : Char) : Bool := c.toNat = 32

/-- Numeric value of the digit list, most significant first. -/
def digitsToNat (l : List Char) : Nat :=
  l.foldl (fun a c => 10 * a + (c.toNat - 48)) 0

/-- Python `int(s)`: strip surrounding whitespace, allow an optional sign,
require at least one digit; `none` models the `ValueError` raise. -/
def parse_int? (l : List Char) : Option Int :=
  match (l.dropWhile isSpaceChar).reverse.dropWhile isSpaceChar |>.reverse with
  | [] => none
  | c :: cs =>
    if c = '-' then
      if !cs.isEmpty && cs.all Char.isDigit then some (-(digitsToNat cs : Int)) else none
    else if c = '+' then
      if !cs.isEmpty && cs.all Char.isDigit then some ((digitsToNat cs : Int)) else none
    else if (c :: cs).all Char.isDigit then some ((digitsToNat (c :: cs) : Int)) else none

/-- Lines 227-233: iterate over the stdout lines; on the first line
containing `;TIME:` evaluate `int(line.split(":")[1]) / 60` (true division,
an exact rational here); if no line matches, return `None`. -/
def get_print_time_parse : List (List Char) → Except Unit (Option ℚ)
  | [] => .ok none
  | l :: ls =>
    if containsPat timeMarker l then
      match (splitOnSep ':' l).get? 1 with
      | some tok =>
        match parse_int? tok with
        | some k => .ok (some ((k : ℚ) / 60))
        | none => .error ()
      | none => .error ()
    else get_print_time_parse ls

instance {ε α : Type} [DecidableEq ε] [DecidableEq α] : DecidableEq (Except ε α) :=
  fun a b =>
    match a, b with
    | .error e1, .error e2 =>
      if h : e1 = e2 then isTrue (by rw [h]) else isFalse (by simp [h])
    | .ok x, .ok y =>
      if h : x = y then isTrue (by rw [h]) else isFalse (by simp [h])
    | .error _, .ok _ => isFalse (by simp)
    | .ok _, .error _ => isFalse (by simp)

/-! ## Model of `repair_mesh` and `verify_mesh_for_openscad` (lines 12-49)

The mesh and the trimesh library are abstract: a `MeshLib` packages the
library calls the script makes.  Mutating calls are fallible
(`Except Unit`), matching the `try`/`except Exception` wrapper; property
reads (`is_watertight`, ...) are total. -/

/-- The trimesh operations `repair_mesh` and `verify_mesh_for_openscad`
invoke.  `drop_degenerate` is `update_faces(nondegenerate_faces())`
(line 26), `drop_duplicate` is `update_faces(unique_faces())` (line 27),
`shell_count` is `len(mesh.split())` (line 17). -/
structure MeshLib (M : Type) where
  process : M → Except Unit M
  merge_vertices : M → Except Unit M
  drop_degenerate : M → Except Unit M
  drop_duplicate : M → Except Unit M
  remove_infinite_values : M → Except Unit M
  fix_normals : M → Except Unit M
  fill_holes : M → Except Unit M
  is_watertight : M → Bool
  is_winding_consistent : M → Bool
  shell_count : M → Nat

/-- The message component of `verify_mesh_for_openscad`'s result. -/
inductive VerifyMsg
  | notWatertight
  | windingInconsistent
  | multipleShells
  | valid
deriving DecidableEq

/-- Lines 12-19: the three validity checks, first failure wins. -/
def verify_mesh_for_openscad {M : Type} (L : MeshLib M) (m : M) : Bool × VerifyMsg :=
  if !(L.is_watertight m) then (false, .notWatertight)
  else if !(L.is_winding_consistent m) then (false, .windingInconsistent)
  else if L.shell_count m > 1 then (false, .multipleShells)
  else (true, .valid)

/-- The library calls `repair_mesh` can make, as trace entries. -/
inductive RepairStep
  | processStep
  | mergeStep
  | dropDegenerateStep
  | dropDuplicateStep
  | removeInfiniteStep
  | fixNormalsStep
  | fillHolesStep
deriving DecidableEq

/-- The basic repair sequence of lines 24-29 as one chained computation. -/
def basic_repair {M : Type} (L : MeshLib M) (m : M) : Except Unit M :=
  L.process m >>= L.merge_vertices >>= L.drop_degenerate >>= L.drop_duplicate
    >>= L.remove_infinite_values >>= L.fix_normals

/-- Trace of the basic repair sequence when every call runs. -/
def baseSteps : List RepairStep :=
  [.processStep, .mergeStep, .dropDegenerateStep, .dropDuplicateStep,
   .removeInfiniteStep, .fixNormalsStep]

/-- Lines 21-49: the repair sequence with its single hole-filling fallback.
Any exception aborts the `try` block and returns `None` (lines 47-49); the
verification of lines 36-45 only prints and the mesh is returned either
way (line 46).  The result pairs the returned value with the list of
library calls made, in order. -/
def repair_mesh {M : Type} (L : MeshLib M) (m0 : M) : Option M × List RepairStep :=
  match L.process m0 with
  | .error _ => (none, [.processStep])
  | .ok m1 =>
  match L.merge_vertices m1 with
  | .error _ => (none, [.processStep, .mergeStep])
  | .ok m2 =>
  match L.drop_degenerate m2 with
  | .error _ => (none, [.processStep, .mergeStep, .dropDegenerateStep])
  | .ok m3 =>
  match L.drop_duplicate m3 with
  | .error _ => (none, [.processStep, .mergeStep, .dropDegenerateStep, .dropDuplicateStep])
  | .ok m4 =>
  match L.remove_infinite_values m4 with
  | .error _ =>
      (none, [.processStep, .mergeStep, .dropDegenerateStep, .dropDuplicateStep,
              .removeInfiniteStep])
  | .ok m5 =>
  match L.fix_normals m5 with
  | .error _ => (none, baseSteps)
  | .ok m6 =>
    if L.is_watertight m6 then (some m6, baseSteps)
    else
      match L.fill_holes m6 with
      | .error _ => (none, baseSteps ++ [.fillHolesStep])
      | .ok m7 =>
        match L.process m7 with
        | .error _ => (none, baseSteps ++ [.fillHolesStep, .processStep])
        | .ok m8 => (some m8, baseSteps ++ [.fillHolesStep, .processStep])

/-- Forget the error of a fallible result, as `repair_mesh`'s caller sees it. -/
def toOpt {α : Type} : Except Unit α → Option α
  | .ok a => some a
  | .error _ => none

/-! ## Concrete runs and inputs used by counterexamples and witnesses -/

/-- Concrete run for the C1 witness: a 10×10×10 box, requested thickness
0.2. -/
def envC1 : RunEnv :=
  { loadOk := true, repairExn := false
    rawBounds := ⟨⟨0, 0, 0⟩, ⟨10, 10, 10⟩⟩
    thickness := 0.2
    openscadRun := .ok, curaPathsExist := false
    curaOptimizedOk := false, curaOptimizedTime := none
    curaUnoptimizedOk := false, curaUnoptimizedTime := none }

/-- Concrete run refuting C2: a 1.5×1.5×1.5 box with requested thickness 1.
Line 96 caps the thickness to `min_dim / 4 = 0.375 < 0.4`, and the run still
proceeds to emit the CSG script. -/
def envC2 : RunEnv :=
  { loadOk := true, repairExn := false
    rawBounds := ⟨⟨0, 0, 0⟩, ⟨3/2, 3/2, 3/2⟩⟩
    thickness := 1
    openscadRun := .ok, curaPathsExist := false
    curaOptimizedOk := false, curaOptimizedTime := none
    curaUnoptimizedOk := false, curaUnoptimizedTime := none }

/-- Concrete run for the C2 witness: requested thickness fits, floor applies. -/
def envC2b : RunEnv :=
  { loadOk := true, repairExn := false
    rawBounds := ⟨⟨0, 0, 0⟩, ⟨10, 10, 10⟩⟩
    thickness := 0.3
    openscadRun := .ok, curaPathsExist := false
    curaOptimizedOk := false, curaOptimizedTime := none
    curaUnoptimizedOk := false, curaUnoptimizedTime := none }

/-- Bounding box for the C7 witness: a 0.5-unit cube, scaled ×1000. -/
def bC7 : Bounds := ⟨⟨0, 0, 0⟩, ⟨1/2, 1/2, 1/2⟩⟩

/-- Concrete run for the C10 witness. -/
def envC10 : RunEnv :=
  { loadOk := true, repairExn := false
    rawBounds := ⟨⟨0, 0, 0⟩, ⟨10, 8, 6⟩⟩
    thickness := 0.2
    openscadRun := .ok, curaPathsExist := false
    curaOptimizedOk := false, curaOptimizedTime := none
    curaUnoptimizedOk := false, curaUnoptimizedTime := none }

/-- Concrete mesh library for the C9 witness: meshes are naturals, every
call succeeds and leaves the mesh unchanged, everything is watertight. -/
def libC9 : MeshLib Nat :=
  { process := fun n => .ok n, merge_vertices := fun n => .ok n
    drop_degenerate := fun n => .ok n, drop_duplicate := fun n => .ok n
    remove_infinite_values := fun n => .ok n, fix_normals := fun n => .ok n
    fill_holes := fun n => .ok n
    is_watertight := fun _ => true, is_winding_consistent := fun _ => true
    shell_count := fun _ => 1 }

/-- Concrete run refuting C3: the mesh loads, the feasibility check passes,
and the OpenSCAD subprocess exits with an error. -/
def envC3 : RunEnv :=
  { loadOk := true, repairExn := false
    rawBounds := ⟨⟨0, 0, 0⟩, ⟨10, 10, 10⟩⟩
    thickness := 0.2
    openscadRun := .exitFail, curaPathsExist := false
    curaOptimizedOk := false, curaOptimizedTime := none
    curaUnoptimizedOk := false, curaUnoptimizedTime := none }

/-- Concrete run for the C4 witness: the OpenSCAD call times out. -/
def envC4 : RunEnv :=
  { loadOk := true, repairExn := false
    rawBounds := ⟨⟨0, 0, 0⟩, ⟨10, 10, 10⟩⟩
    thickness := 0.2
    openscadRun := .timedOut, curaPathsExist := false
    curaOptimizedOk := false, curaOptimizedTime := none
    curaUnoptimizedOk := false, curaUnoptimizedTime := none }

/-- Concrete run refuting C5: a fully successful run (repair, OpenSCAD and
both slices all succeed, both time markers found). -/
def envC5 : RunEnv :=
  { loadOk := true, repairExn := false
    rawBounds := ⟨⟨0, 0, 0⟩, ⟨10, 10, 10⟩⟩
    thickness := 0.2
    openscadRun := .ok, curaPathsExist := true
    curaOptimizedOk := true, curaOptimizedTime := some 600
    curaUnoptimizedOk := true, curaUnoptimizedTime := some 1200 }

/-- Concrete run refuting C6: a successful run in which CuraEngine is
actually invoked. -/
def envC6 : RunEnv :=
  { loadOk := true, repairExn := false
    rawBounds := ⟨⟨0, 0, 0⟩, ⟨10, 10, 10⟩⟩
    thickness := 0.2
    openscadRun := .ok, curaPathsExist := true
    curaOptimizedOk := true, curaOptimizedTime := some 60
    curaUnoptimizedOk := true, curaUnoptimizedTime := some 120 }

/-- The timeout each subprocess invocation of the script is given: 600
seconds for the modeling engine, none for the slicing engine. -/
def progTimeout (p : Prog) : Option Nat :=
  match p with
  | Prog.openscad => some 600
  | Prog.cura => none

/-- A slicer-output line containing the `;TIME:42` marker but with an
earlier colon: `x:;TIME:42`. -/
def lineC8bad : List Char := [ 'x', ':', ';', 'T', 'I', 'M', 'E', ':', '4', '2']

/-- A canonical slicer time line `;TIME:90`. -/
def lineC8good : List Char := [ ';', 'T', 'I', 'M', 'E', ':', '9', '0']

/-! ## Helper lemmas -/

lemma repair_mesh_cases {M : Type} (L : MeshLib M) (m0 : M) :
    (∃ m6, basic_repair L m0 = .ok m6 ∧ L.is_watertight m6 = true ∧
      repair_mesh L m0 = (some m6, baseSteps))
    ∨ (∃ m6, basic_repair L m0 = .ok m6 ∧ L.is_watertight m6 = false ∧
      repair_mesh L m0 = (toOpt (L.fill_holes m6 >>= L.process),
        baseSteps ++ RepairStep.fillHolesStep ::
          (match L.fill_holes m6 with
           | .error _ => []
           | .ok _ => [RepairStep.processStep])))
    ∨ (basic_repair L m0 = .error () ∧ (repair_mesh L m0).1 = none
        ∧ (repair_mesh L m0).2.count RepairStep.fillHolesStep = 0) := by
  cases h1 : L.process m0 with
  | error e =>
    cases e
    refine Or.inr (Or.inr ?_)
    simp [basic_repair, repair_mesh, Bind.bind, Except.bind, h1, List.count_cons]
  | ok m1 =>
  cases h2 : L.merge_vertices m1 with
  | error e =>
    cases e
    refine Or.inr (Or.inr ?_)
    simp [basic_repair, repair_mesh, Bind.bind, Except.bind, h1, h2, List.count_cons]
  | ok m2 =>
  cases h3 : L.drop_degenerate m2 with
  | error e =>
    cases e
    refine Or.inr (Or.inr ?_)
    simp [basic_repair, repair_mesh, Bind.bind, Except.bind, h1, h2, h3, List.count_cons]
  | ok m3 =>
  cases h4 : L.drop_duplicate m3 with
  | error e =>
    cases e
    refine Or.inr (Or.inr ?_)
    simp [basic_repair, repair_mesh, Bind.bind, Except.bind, h1, h2, h3, h4, List.count_cons]
  | ok m4 =>
  cases h5 : L.remove_infinite_values m4 with
  | error e =>
    cases e
    refine Or.inr (Or.inr ?_)
    simp [basic_repair, repair_mesh, Bind.bind, Except.bind, h1, h2, h3, h4, h5, List.count_cons]
  | ok m5 =>
  cases h6 : L.fix_normals m5 with
  | error e =>
    cases e
    refine Or.inr (Or.inr ?_)
    simp [basic_repair, repair_mesh, Bind.bind, Except.bind, h1, h2, h3, h4, h5, h6,
      baseSteps, List.count_cons]
  | ok m6 =>
  cases hw : L.is_watertight m6 with
  | true =>
    refine Or.inl ⟨m6, ?_, hw, ?_⟩
    · simp [basic_repair, Bind.bind, Except.bind, h1, h2, h3, h4, h5, h6]
    · simp [repair_mesh, h1, h2, h3, h4, h5, h6, hw]
  | false =>
    refine Or.inr (Or.inl ⟨m6, ?_, hw, ?_⟩)
    · simp [basic_repair, Bind.bind, Except.bind, h1, h2, h3, h4, h5, h6]
    · cases h7 : L.fill_holes m6 with
      | error e =>
        cases e
        simp [repair_mesh, toOpt, Bind.bind, Except.bind, h1, h2, h3, h4, h5, h6, hw, h7]
      | ok m7 =>
        cases h8 : L.process m7 with
        | error e =>
          cases e
          simp [repair_mesh, toOpt, Bind.bind, Except.bind, h1, h2, h3, h4, h5, h6, hw, h7, h8]
        | ok m8 =>
          simp [repair_mesh, toOpt, Bind.bind, Except.bind, h1, h2, h3, h4, h5, h6, hw, h7, h8]

lemma hollow_ok_iff (d : V3) (t : ℚ) :
    hollow_ok d t = true ↔ 0.4 ≤ minDim d - 2 * t := by
  unfold hollow_ok
  by_cases h : minDim d - 2 * t < 0.4
  · simp only [h, if_true]
    constructor
    · intro hff; exact absurd hff (by norm_num)
    · intro hle; linarith
  · simp only [h, if_false]
    constructor
    · intro _; linarith [not_lt.mp h]
    · intro _; trivial

lemma reachesCSG_hollow {env : RunEnv} (h : reachesCSG env = true) :
    0.4 ≤ minDim (scaled_dims env) - 2 * used_thickness env := by
  unfold reachesCSG at h
  rw [Bool.and_eq_true] at h
  exact (hollow_ok_iff _ _).mp h.2

lemma minDim_le_x (d : V3) : minDim d ≤ d.x := min_le_left _ _

lemma minDim_le_y (d : V3) : minDim d ≤ d.y :=
  le_trans (min_le_right _ _) (min_le_left _ _)

lemma minDim_le_z (d : V3) : minDim d ≤ d.z :=
  le_trans (min_le_right _ _) (min_le_right _ _)

/-! ## Claim C1 -/

/-- C1: on every run of `optimize_stl` that proceeds to emit the CSG script
(that is, the mesh loads and the line-103 feasibility check passes), the
wall thickness actually used — written into the CSG script and the slicer
profile alike — never exceeds half the minimum axis extent of the (possibly
scaled) dimension vector. -/
theorem C1_thickness_le_half_min_dim (env : RunEnv) (h : reachesCSG env = true) :
    used_thickness env ≤ minDim (scaled_dims env) / 2 := by
  have h4 := reachesCSG_hollow h
  linarith

lemma envC1_reaches : reachesCSG envC1 = true := by
  norm_num [reachesCSG, hollow_ok, used_thickness, scaled_dims, adjust_thickness,
    scaleState, scale_factor, dimsOf, centerOf, minDim, maxDim, smul, envC1]

theorem C1_witness :
    reachesCSG envC1 = true ∧ used_thickness envC1 ≤ minDim (scaled_dims envC1) / 2 :=
  ⟨envC1_reaches, C1_thickness_le_half_min_dim envC1 envC1_reaches⟩

/-! ## Claim C2 -/

/-- C2 counterexample: on `envC2` the run proceeds (emits the CSG script)
with a used wall thickness of 0.375, strictly below the claimed 0.4 floor. -/
theorem C2_counterexample :
    reachesCSG envC2 = true ∧ used_thickness envC2 = 3/8 ∧ ¬ (0.4 ≤ used_thickness envC2) := by
  refine ⟨?_, ?_, ?_⟩ <;>
    norm_num [reachesCSG, hollow_ok, used_thickness, scaled_dims, adjust_thickness,
      scaleState, scale_factor, dimsOf, centerOf, minDim, maxDim, smul, envC2]

/-- C2 amended: the 0.4 floor is applied only when the requested thickness
already fits (`2 * thickness ≤ min_dim`, so the line-96 cap is not taken);
when the cap to `min_dim / 4` is taken the used thickness can fall below
0.4, though on any run that still emits the CSG script it is at least
0.2. -/
theorem C2_amended_floor (env : RunEnv) :
    (env.thickness * 2 ≤ minDim (scaled_dims env) → 0.4 ≤ used_thickness env)
    ∧ (reachesCSG env = true → 0.2 ≤ used_thickness env) := by
  constructor
  · intro h
    simp only [used_thickness, adjust_thickness]
    split
    · rename_i hgt; exact absurd hgt (by linarith)
    · split
      · norm_num
      · rename_i h1 h2; linarith [not_lt.mp h2]
  · intro h
    have h4 := reachesCSG_hollow h
    simp only [used_thickness, adjust_thickness] at h4 ⊢
    split at h4
    · rename_i hgt
      rw [if_pos hgt]
      linarith
    · rename_i hgt
      rw [if_neg hgt]
      split at h4
      · rename_i hc; rw [if_pos hc]; norm_num
      · rename_i hc; rw [if_neg hc]; linarith [not_lt.mp hc]

theorem C2_amended_floor_witness : 0.4 ≤ used_thickness envC2b :=
  (C2_amended_floor envC2b).1
    (by norm_num [scaled_dims, scaleState, scale_factor, dimsOf, centerOf, minDim, maxDim,
      smul, envC2b])

/-! ## Claim C7 -/

/-- C7: the scale factor is 1000 exactly when the largest axis extent is
below 1, and 1 otherwise; in the former case dimension vector, center vector
and both bound rows are each multiplied componentwise by 1000, in the latter
they are left unchanged (lines 79-88). -/
theorem C7_scale_factor_behaviour (b : Bounds) :
    (maxDim (dimsOf b) < 1 →
      scale_factor (dimsOf b) = 1000 ∧
      scaleState b = (smul 1000 (dimsOf b), smul 1000 (centerOf b),
        ⟨smul 1000 b.lo, smul 1000 b.hi⟩))
    ∧ (¬ maxDim (dimsOf b) < 1 →
      scale_factor (dimsOf b) = 1 ∧ scaleState b = (dimsOf b, centerOf b, b)) := by
  constructor
  · intro h
    have hf : scale_factor (dimsOf b) = 1000 := by simp [scale_factor, h]
    refine ⟨hf, ?_⟩
    simp only [scaleState, hf]
    norm_num
  · intro h
    have hf : scale_factor (dimsOf b) = 1 := by simp [scale_factor, h]
    refine ⟨hf, ?_⟩
    simp only [scaleState, hf]
    norm_num

theorem C7_witness :
    scale_factor (dimsOf bC7) = 1000 ∧
    scaleState bC7 = (smul 1000 (dimsOf bC7), smul 1000 (centerOf bC7),
      ⟨smul 1000 bC7.lo, smul 1000 bC7.hi⟩) :=
  (C7_scale_factor_behaviour bC7).1 (by norm_num [maxDim, dimsOf, bC7])

/-! ## Claim C10 -/

/-- C10: whenever the run passes the hollowing feasibility check with all
(scaled) dimensions positive, each per-axis shrink ratio
`(dims[i] - 2*thickness) / dims[i]` written into the CSG `scale` call lies
strictly between 0 and 1. -/
theorem C10_shrink_ratios_in_unit_interval (env : RunEnv)
    (hx : 0 < (scaled_dims env).x) (hy : 0 < (scaled_dims env).y)
    (hz : 0 < (scaled_dims env).z) (h : reachesCSG env = true) :
    (0 < shrink_ratio (scaled_dims env).x (used_thickness env)
      ∧ shrink_ratio (scaled_dims env).x (used_thickness env) < 1)
    ∧ (0 < shrink_ratio (scaled_dims env).y (used_thickness env)
      ∧ shrink_ratio (scaled_dims env).y (used_thickness env) < 1)
    ∧ (0 < shrink_ratio (scaled_dims env).z (used_thickness env)
      ∧ shrink_ratio (scaled_dims env).z (used_thickness env) < 1) := by
  have h4 := reachesCSG_hollow h
  have hm : 0 < minDim (scaled_dims env) := by
    unfold minDim
    exact lt_min hx (lt_min hy hz)
  have ht : 0 < used_thickness env := by
    simp only [used_thickness, adjust_thickness]
    split
    · linarith
    · split
      · norm_num
      · rename_i h1 h2; linarith [not_lt.mp h2]
  have hxm := minDim_le_x (scaled_dims env)
  have hym := minDim_le_y (scaled_dims env)
  have hzm := minDim_le_z (scaled_dims env)
  refine ⟨⟨?_, ?_⟩, ⟨?_, ?_⟩, ⟨?_, ?_⟩⟩ <;> unfold shrink_ratio
  · exact div_pos (by linarith) (by linarith)
  · exact (div_lt_one (by linarith)).mpr (by linarith)
  · exact div_pos (by linarith) (by linarith)
  · exact (div_lt_one (by linarith)).mpr (by linarith)
  · exact div_pos (by linarith) (by linarith)
  · exact (div_lt_one (by linarith)).mpr (by linarith)

theorem C10_witness :
    (0 < shrink_ratio (scaled_dims envC10).x (used_thickness envC10)
      ∧ shrink_ratio (scaled_dims envC10).x (used_thickness envC10) < 1)
    ∧ (0 < shrink_ratio (scaled_dims envC10).y (used_thickness envC10)
      ∧ shrink_ratio (scaled_dims envC10).y (used_thickness envC10) < 1)
    ∧ (0 < shrink_ratio (scaled_dims envC10).z (used_thickness envC10)
      ∧ shrink_ratio (scaled_dims envC10).z (used_thickness envC10) < 1) := by
  have h1 : 0 < (scaled_dims envC10).x := by
    norm_num [scaled_dims, scaleState, scale_factor, dimsOf, centerOf, minDim, maxDim,
      smul, envC10]
  have h2 : 0 < (scaled_dims envC10).y := by
    norm_num [scaled_dims, scaleState, scale_factor, dimsOf, centerOf, minDim, maxDim,
      smul, envC10]
  have h3 : 0 < (scaled_dims envC10).z := by
    norm_num [scaled_dims, scaleState, scale_factor, dimsOf, centerOf, minDim, maxDim,
      smul, envC10]
  have h4 : reachesCSG envC10 = true := by
    norm_num [reachesCSG, hollow_ok, used_thickness, scaled_dims, adjust_thickness,
      scaleState, scale_factor, dimsOf, centerOf, minDim, maxDim, smul, envC10]
  exact C10_shrink_ratios_in_unit_interval envC10 h1 h2 h3 h4

/-! ## Claim C9 -/

/-- C9: `repair_mesh` is a fixed sequence with exactly one fallback: the
basic repair chain runs first (process, merge vertices, drop degenerate and
duplicate faces, remove infinite values, fix normals); hole filling is
attempted (at most once) exactly when the mesh is still not watertight after
that chain; when the mesh is still invalid afterwards the function only
warns and still returns the mesh; `None` is returned precisely when one of
the library calls raises. -/
theorem C9_repair_sequence {M : Type} (L : MeshLib M) (m0 : M) :
    ((repair_mesh L m0).2.count RepairStep.fillHolesStep ≤ 1)
    ∧ (∀ m6, basic_repair L m0 = .ok m6 → L.is_watertight m6 = true →
        repair_mesh L m0 = (some m6, baseSteps))
    ∧ (∀ m6, basic_repair L m0 = .ok m6 → L.is_watertight m6 = false →
        (repair_mesh L m0).1 = toOpt (L.fill_holes m6 >>= L.process)
        ∧ RepairStep.fillHolesStep ∈ (repair_mesh L m0).2)
    ∧ ((repair_mesh L m0).1 = none ↔
        basic_repair L m0 = .error ()
        ∨ ∃ m6, basic_repair L m0 = .ok m6 ∧ L.is_watertight m6 = false
            ∧ L.fill_holes m6 >>= L.process = .error ())
    ∧ (∀ m6, basic_repair L m0 = .ok m6 → L.is_watertight m6 = true →
        (verify_mesh_for_openscad L m6).1 = false → (repair_mesh L m0).1 = some m6) := by
  rcases repair_mesh_cases L m0 with ⟨m6, hb, hw, he⟩ | ⟨m6, hb, hw, he⟩ | ⟨hb, he1, he2⟩
  · refine ⟨?_, ?_, ?_, ?_, ?_⟩
    · rw [he]
      norm_num [baseSteps, List.count_cons, List.count_nil]
      decide
    · intro m6' hb' _
      rw [hb] at hb'; injection hb' with hh; subst hh; exact he
    · intro m6' hb' hw'
      rw [hb] at hb'; injection hb' with hh; subst hh
      simp [hw] at hw'
    · constructor
      · intro hnone; rw [he] at hnone; simp at hnone
      · rintro (h | ⟨m6', hb', hw', _⟩)
        · rw [hb] at h; simp at h
        · rw [hb] at hb'; injection hb' with hh; subst hh
          simp [hw] at hw'
    · intro m6' hb' _ _
      rw [hb] at hb'; injection hb' with hh; subst hh
      rw [he]
  · refine ⟨?_, ?_, ?_, ?_, ?_⟩
    · rw [he]
      cases h7 : L.fill_holes m6 <;> simp [h7, baseSteps, List.count_append, List.count_cons]
    · intro m6' hb' hw'
      rw [hb] at hb'; injection hb' with hh; subst hh
      simp [hw] at hw'
    · intro m6' hb' _
      rw [hb] at hb'; injection hb' with hh; subst hh
      rw [he]
      refine ⟨rfl, ?_⟩
      simp
    · cases hc : L.fill_holes m6 >>= L.process with
      | error e =>
        cases e
        refine iff_of_true ?_ (Or.inr ⟨m6, hb, hw, hc⟩)
        rw [he, hc]; rfl
      | ok m8 =>
        refine iff_of_false ?_ ?_
        · rw [he, hc]; simp [toOpt]
        · rintro (h | ⟨m6', hb', hw', hf⟩)
          · rw [hb] at h; simp at h
          · rw [hb] at hb'; injection hb' with hh; subst hh
            rw [hc] at hf; simp at hf
    · intro m6' hb' hw' _
      rw [hb] at hb'; injection hb' with hh; subst hh
      simp [hw] at hw'
  · refine ⟨?_, ?_, ?_, ?_, ?_⟩
    · rw [he2]; norm_num
    · intro m6' hb' _
      rw [hb] at hb'; simp at hb'
    · intro m6' hb' _
      rw [hb] at hb'; simp at hb'
    · exact iff_of_true he1 (Or.inl hb)
    · intro m6' hb' _ _
      rw [hb] at hb'; simp at hb'

theorem C9_witness : repair_mesh libC9 0 = (some 0, baseSteps) :=
  (C9_repair_sequence libC9 0).2.1 0 (by rfl) (by rfl)

/-! ## Trace helper lemmas -/

lemma foldl_step_gpt_ne (pe ok : Bool) (t : Option Nat) (g f : FName) (hne : g ≠ f)
    (s : Bool) :
    List.foldl (stepEvent f) s (get_print_time_run pe ok t g).2 = s := by
  cases pe <;> cases ok <;> cases t <;>
    simp [get_print_time_run, stepEvent, hne]

lemma foldl_step_gpt_self (pe ok : Bool) (t : Option Nat) (g : FName) (s : Bool) :
    List.foldl (stepEvent g) s (get_print_time_run pe ok t g).2 =
      (if pe && ok then (match t with | some _ => false | none => true) else s) := by
  cases pe <;> cases ok <;> cases t <;>
    simp [get_print_time_run, stepEvent]

lemma run_result (env : RunEnv) : (optimize_stl_run env).1 = reachesCSG env := by
  cases h1 : env.loadOk <;>
    cases h2 : env.repairExn <;>
      cases h3 : hollow_ok (scaled_dims env) (used_thickness env) <;>
        cases h4 : env.openscadRun <;>
          simp [optimize_stl_run, reachesCSG, h1, h2, h3, h4]

lemma survives_scadTemp (env : RunEnv) :
    survives (optimize_stl_run env).2 FName.scadTemp = false := by
  cases h1 : env.loadOk <;>
    cases h2 : env.repairExn <;>
      cases h3 : hollow_ok (scaled_dims env) (used_thickness env) <;>
        cases h4 : env.openscadRun <;>
          simp [optimize_stl_run, survives, stepEvent, h1, h2, h3, h4,
            List.foldl_append, foldl_step_gpt_ne]

lemma survives_debugRaw (env : RunEnv) :
    survives (optimize_stl_run env).2 FName.debugRaw = env.loadOk := by
  cases h1 : env.loadOk <;>
    cases h2 : env.repairExn <;>
      cases h3 : hollow_ok (scaled_dims env) (used_thickness env) <;>
        cases h4 : env.openscadRun <;>
          simp [optimize_stl_run, survives, stepEvent, h1, h2, h3, h4,
            List.foldl_append, foldl_step_gpt_ne]

lemma survives_debugRepaired (env : RunEnv) :
    survives (optimize_stl_run env).2 FName.debugRepaired = (env.loadOk && !env.repairExn) := by
  cases h1 : env.loadOk <;>
    cases h2 : env.repairExn <;>
      cases h3 : hollow_ok (scaled_dims env) (used_thickness env) <;>
        cases h4 : env.openscadRun <;>
          simp [optimize_stl_run, survives, stepEvent, h1, h2, h3, h4,
            List.foldl_append, foldl_step_gpt_ne]

lemma survives_outputStl (env : RunEnv) :
    survives (optimize_stl_run env).2 FName.outputStl =
      (reachesCSG env && (env.openscadRun == ProcOutcome.ok)) := by
  cases h1 : env.loadOk <;>
    cases h2 : env.repairExn <;>
      cases h3 : hollow_ok (scaled_dims env) (used_thickness env) <;>
        cases h4 : env.openscadRun <;>
          simp [optimize_stl_run, survives, reachesCSG, stepEvent, h1, h2, h3, h4,
            List.foldl_append, foldl_step_gpt_ne]

lemma survives_profileZip (env : RunEnv) :
    survives (optimize_stl_run env).2 FName.profileZip = reachesCSG env := by
  cases h1 : env.loadOk <;>
    cases h2 : env.repairExn <;>
      cases h3 : hollow_ok (scaled_dims env) (used_thickness env) <;>
        cases h4 : env.openscadRun <;>
          simp [optimize_stl_run, survives, reachesCSG, stepEvent, h1, h2, h3, h4,
            List.foldl_append, foldl_step_gpt_ne]

lemma survives_gcodeOptimized (env : RunEnv) :
    survives (optimize_stl_run env).2 FName.gcodeOptimized =
      (reachesCSG env && (env.openscadRun == ProcOutcome.ok) && env.curaPathsExist
        && env.curaOptimizedOk && env.curaOptimizedTime.isNone) := by
  cases h1 : env.loadOk <;>
    cases h2 : env.repairExn <;>
      cases h3 : hollow_ok (scaled_dims env) (used_thickness env) <;>
        cases h4 : env.openscadRun <;>
          cases h5 : env.curaPathsExist <;>
            cases h6 : env.curaOptimizedOk <;>
              cases h7 : env.curaOptimizedTime <;>
                simp [optimize_stl_run, survives, reachesCSG, stepEvent,
                  h1, h2, h3, h4, h5, h6, h7, List.foldl_append, foldl_step_gpt_ne,
                  foldl_step_gpt_self]

lemma survives_gcodeUnoptimized (env : RunEnv) :
    survives (optimize_stl_run env).2 FName.gcodeUnoptimized =
      (reachesCSG env && env.curaPathsExist && env.curaUnoptimizedOk
        && env.curaUnoptimizedTime.isNone) := by
  cases h1 : env.loadOk <;>
    cases h2 : env.repairExn <;>
      cases h3 : hollow_ok (scaled_dims env) (used_thickness env) <;>
        cases h4 : env.openscadRun <;>
          cases h5 : env.curaPathsExist <;>
            cases h6 : env.curaUnoptimizedOk <;>
              cases h7 : env.curaUnoptimizedTime <;>
                simp [optimize_stl_run, survives, reachesCSG, stepEvent,
                  h1, h2, h3, h4, h5, h6, h7, List.foldl_append, foldl_step_gpt_ne,
                  foldl_step_gpt_self]

lemma exec_mem_gpt_iff (pe ok : Bool) (t : Option Nat) (g : FName) (p : Prog)
    (tmo : Option Nat) (r : ProcOutcome) :
    (Event.exec p tmo r ∈ (get_print_time_run pe ok t g).2) ↔
      (pe = true ∧ p = Prog.cura ∧ tmo = none
        ∧ r = (if ok then ProcOutcome.ok else ProcOutcome.exitFail)) := by
  cases pe <;> cases ok <;> cases t <;> simp [get_print_time_run]

lemma exec_mem_run (env : RunEnv) (p : Prog) (tmo : Option Nat) (r : ProcOutcome)
    (h : Event.exec p tmo r ∈ (optimize_stl_run env).2) :
    (p = Prog.openscad ∧ tmo = some 600) ∨ (p = Prog.cura ∧ tmo = none) := by
  cases h1 : env.loadOk <;>
    cases h2 : env.repairExn <;>
      cases h3 : hollow_ok (scaled_dims env) (used_thickness env) <;>
        cases h4 : env.openscadRun <;>
          simp [optimize_stl_run, h1, h2, h3, h4, exec_mem_gpt_iff] at h <;>
            tauto

lemma mem_scad_events (env : RunEnv) (h : reachesCSG env = true) :
    Event.create FName.scadTemp ∈ (optimize_stl_run env).2
    ∧ Event.delete FName.scadTemp ∈ (optimize_stl_run env).2 := by
  rw [reachesCSG, Bool.and_eq_true] at h
  obtain ⟨h1, h3⟩ := h
  cases h2 : env.repairExn <;>
    cases h4 : env.openscadRun <;>
      simp [optimize_stl_run, h1, h2, h3, h4]

/-! ## Claim C3 -/

lemma envC3_hollow : hollow_ok (scaled_dims envC3) (used_thickness envC3) = true := by
  norm_num [hollow_ok, scaled_dims, used_thickness, adjust_thickness, scaleState,
    scale_factor, dimsOf, centerOf, minDim, maxDim, smul, envC3]

/-- C3 counterexample: on `envC3` the OpenSCAD invocation runs and fails
(exit-code failure), yet `optimize_stl` returns `True`, not `False`. -/
theorem C3_counterexample :
    envC3.openscadRun = ProcOutcome.exitFail
    ∧ Event.exec Prog.openscad (some 600) ProcOutcome.exitFail ∈ (optimize_stl_run envC3).2
    ∧ (optimize_stl_run envC3).1 = true := by
  have h1 : envC3.loadOk = true := rfl
  have h2 : envC3.repairExn = false := rfl
  have h3 := envC3_hollow
  have h4 : envC3.openscadRun = ProcOutcome.exitFail := rfl
  have h5 : envC3.curaPathsExist = false := rfl
  refine ⟨rfl, ?_, ?_⟩
  · simp [optimize_stl_run, get_print_time_run, h1, h2, h3, h4, h5]
  · simp [optimize_stl_run, h1, h2, h3, h4]

/-- C3 amended: `optimize_stl` returns `False` exactly when the mesh fails
to load or the too-thin check fires (the run does not reach the CSG stage);
a failed or timed-out OpenSCAD invocation only prints a diagnostic and
leaves no optimized output (and the optimized slice is skipped), while the
function still returns `True`. -/
theorem C3_amended_failure_flag (env : RunEnv) :
    ((optimize_stl_run env).1 = reachesCSG env)
    ∧ (env.openscadRun ≠ ProcOutcome.ok →
        survives (optimize_stl_run env).2 FName.outputStl = false
        ∧ survives (optimize_stl_run env).2 FName.gcodeOptimized = false) := by
  refine ⟨run_result env, ?_⟩
  intro hne
  have hb : (env.openscadRun == ProcOutcome.ok) = false := by
    cases h : env.openscadRun <;> simp_all
  constructor
  · rw [survives_outputStl, hb, Bool.and_false]
  · rw [survives_gcodeOptimized]
    simp [hb]

/-- Witness for the amended C3 at the concrete failing run. -/
theorem C3_amended_failure_flag_witness :
    survives (optimize_stl_run envC3).2 FName.outputStl = false
    ∧ survives (optimize_stl_run envC3).2 FName.gcodeOptimized = false :=
  (C3_amended_failure_flag envC3).2 (by decide)

/-! ## Claim C4 -/

/-- C4: on every run that reaches the CSG-script stage, the temp CSG script
is created, a removal of it is performed, and it does not survive the run —
this holds on the success, subprocess-failure and timeout paths alike, as
the hypothesis leaves `openscadRun` arbitrary. -/
theorem C4_scad_cleanup (env : RunEnv) (h : reachesCSG env = true) :
    Event.create FName.scadTemp ∈ (optimize_stl_run env).2
    ∧ Event.delete FName.scadTemp ∈ (optimize_stl_run env).2
    ∧ survives (optimize_stl_run env).2 FName.scadTemp = false :=
  ⟨(mem_scad_events env h).1, (mem_scad_events env h).2, survives_scadTemp env⟩

theorem C4_scad_cleanup_witness :
    reachesCSG envC4 = true
    ∧ (Event.create FName.scadTemp ∈ (optimize_stl_run envC4).2
      ∧ Event.delete FName.scadTemp ∈ (optimize_stl_run envC4).2
      ∧ survives (optimize_stl_run envC4).2 FName.scadTemp = false) := by
  have h : reachesCSG envC4 = true := by
    norm_num [reachesCSG, hollow_ok, scaled_dims, used_thickness, adjust_thickness,
      scaleState, scale_factor, dimsOf, centerOf, minDim, maxDim, smul, envC4]
  exact ⟨h, C4_scad_cleanup envC4 h⟩

/-! ## Claim C5 -/

/-- C5 counterexample: even on the fully successful run `envC5`, the raw
debug STL export — a file that is neither the optimized mesh nor the
profile ZIP — survives the run. -/
theorem C5_counterexample :
    reachesCSG envC5 = true
    ∧ survives (optimize_stl_run envC5).2 FName.debugRaw = true
    ∧ FName.debugRaw ≠ FName.outputStl ∧ FName.debugRaw ≠ FName.profileZip := by
  have h : reachesCSG envC5 = true := by
    norm_num [reachesCSG, hollow_ok, scaled_dims, used_thickness, adjust_thickness,
      scaleState, scale_factor, dimsOf, centerOf, minDim, maxDim, smul, envC5]
  refine ⟨h, ?_, by decide, by decide⟩
  rw [survives_debugRaw]
  rfl

/-- C5 amended: the files surviving a run are exactly characterized as
follows — besides the optimized mesh (present when the run reached the CSG
stage and OpenSCAD succeeded) and the profile ZIP (present when the run
reached the CSG stage), the raw debug STL survives whenever the mesh
loaded, the repaired debug STL whenever repair returned a mesh, and a temp
G-code file whenever the corresponding slicing call ran successfully but
its output lacked the `;TIME:` marker; the temp CSG script never
survives. -/
theorem C5_amended_persistence (env : RunEnv) :
    survives (optimize_stl_run env).2 FName.scadTemp = false
    ∧ survives (optimize_stl_run env).2 FName.debugRaw = env.loadOk
    ∧ survives (optimize_stl_run env).2 FName.debugRepaired = (env.loadOk && !env.repairExn)
    ∧ survives (optimize_stl_run env).2 FName.outputStl =
        (reachesCSG env && (env.openscadRun == ProcOutcome.ok))
    ∧ survives (optimize_stl_run env).2 FName.profileZip = reachesCSG env
    ∧ survives (optimize_stl_run env).2 FName.gcodeOptimized =
        (reachesCSG env && (env.openscadRun == ProcOutcome.ok) && env.curaPathsExist
          && env.curaOptimizedOk && env.curaOptimizedTime.isNone)
    ∧ survives (optimize_stl_run env).2 FName.gcodeUnoptimized =
        (reachesCSG env && env.curaPathsExist && env.curaUnoptimizedOk
          && env.curaUnoptimizedTime.isNone) :=
  ⟨survives_scadTemp env, survives_debugRaw env, survives_debugRepaired env,
    survives_outputStl env, survives_profileZip env, survives_gcodeOptimized env,
    survives_gcodeUnoptimized env⟩

/-! ## Claim C6 -/

lemma envC6_cura_mem :
    Event.exec Prog.cura none ProcOutcome.ok ∈ (optimize_stl_run envC6).2 := by
  have h1 : envC6.loadOk = true := rfl
  have h2 : envC6.repairExn = false := rfl
  have h3 : hollow_ok (scaled_dims envC6) (used_thickness envC6) = true := by
    norm_num [hollow_ok, scaled_dims, used_thickness, adjust_thickness, scaleState,
      scale_factor, dimsOf, centerOf, minDim, maxDim, smul, envC6]
  have h4 : envC6.openscadRun = ProcOutcome.ok := rfl
  have h5 : envC6.curaPathsExist = true := rfl
  have h6 : envC6.curaOptimizedOk = true := rfl
  have h7 : envC6.curaOptimizedTime = some 60 := rfl
  simp [optimize_stl_run, get_print_time_run, h1, h2, h3, h4, h5, h6, h7]

/-- C6 counterexample: on `envC6` a CuraEngine invocation happens with no
timeout argument at all, so not every blocking subprocess invocation is
bounded by a fixed timeout. -/
theorem C6_counterexample :
    Event.exec Prog.cura none ProcOutcome.ok ∈ (optimize_stl_run envC6).2
    ∧ ¬ (∀ (p : Prog) (tmo : Option Nat) (r : ProcOutcome),
          Event.exec p tmo r ∈ (optimize_stl_run envC6).2 → tmo.isSome = true) := by
  refine ⟨envC6_cura_mem, fun hall => ?_⟩
  have := hall Prog.cura none ProcOutcome.ok envC6_cura_mem
  simp at this

/-- C6 amended: the OpenSCAD invocation is bounded by a fixed 600-second
timeout, but the CuraEngine invocations pass no timeout whatsoever: every
exec event of a run carries exactly `progTimeout` of its program. -/
theorem C6_amended_timeouts (env : RunEnv) (p : Prog) (tmo : Option Nat)
    (r : ProcOutcome) (h : Event.exec p tmo r ∈ (optimize_stl_run env).2) :
    tmo = progTimeout p := by
  rcases exec_mem_run env p tmo r h with ⟨hp, ht⟩ | ⟨hp, ht⟩ <;>
    subst hp <;> simp [progTimeout, ht]

/-- Witness for the amended C6 at the concrete run `envC6`. -/
theorem C6_amended_timeouts_witness :
    Event.exec Prog.cura none ProcOutcome.ok ∈ (optimize_stl_run envC6).2
    ∧ (none : Option Nat) = progTimeout Prog.cura :=
  ⟨envC6_cura_mem, C6_amended_timeouts envC6 Prog.cura none ProcOutcome.ok envC6_cura_mem⟩

/-! ## Claim C8 -/

/-- C8 counterexample: the line `x:;TIME:42` contains the `;TIME:<seconds>`
marker, yet `get_print_time` neither returns `42/60` nor `None`: the code
evaluates `int(line.split(":")[1])` — the token after the line's FIRST
colon, here `;TIME` — so the parse raises an uncaught `ValueError`,
modelled as `.error ()`. -/
theorem C8_counterexample :
    containsPat timeMarker lineC8bad = true
    ∧ get_print_time_parse [lineC8bad] = .error () := by
  constructor
  · decide
  · decide

/-- C8 amended: when no line of the slicer output contains `;TIME:`,
`get_print_time` returns `None`; on the first line containing the marker it
evaluates `int` of the token after the line's FIRST colon and returns that
value divided by 60 — equal to the marker's seconds only when the marker's
colon is the line's first colon — and raises an uncaught exception when
that token is not an integer. -/
theorem C8_amended_time_parse :
    (∀ ls : List (List Char), (∀ l ∈ ls, containsPat timeMarker l = false) →
      get_print_time_parse ls = .ok none)
    ∧ (∀ (ls : List (List Char)) (l : List Char) (rest : List (List Char)),
        (∀ x ∈ ls, containsPat timeMarker x = false) →
        containsPat timeMarker l = true →
        get_print_time_parse (ls ++ l :: rest) =
          (match (splitOnSep ':' l)[1]? with
           | some tok =>
             (match parse_int? tok with
              | some k => Except.ok (some ((k : ℚ) / 60))
              | none => Except.error ())
           | none => Except.error ())) := by
  constructor
  · intro ls h
    induction ls with
    | nil => rfl
    | cons a as ih =>
      have ha := h a (by simp)
      simp [get_print_time_parse, ha]
      exact ih (fun x hx => h x (List.mem_cons_of_mem a hx))
  · intro ls l rest h hl
    induction ls with
    | nil =>
      simp only [List.nil_append]
      simp [get_print_time_parse, hl]
    | cons a as ih =>
      have ha := h a (by simp)
      simp only [List.cons_append]
      simp [get_print_time_parse, ha]
      exact ih (fun x hx => h x (List.mem_cons_of_mem a hx))

/-- Witness for the amended C8: the canonical line `;TIME:90` alone yields
90/60 = 1.5 minutes. -/
theorem C8_amended_time_parse_witness :
    get_print_time_parse [lineC8good] = .ok (some (3/2)) := by
  have h := C8_amended_time_parse.2 [] lineC8good [] (by simp) (by decide)
  rw [List.nil_append] at h
  rw [h]
  have hs : (splitOnSep ':' lineC8good)[1]? = some [ '9', '0'] := by decide
  have hp : parse_int? [ '9', '0'] = some 90 := by decide
  rw [hs]
  simp only [hp]
  norm_num
